import Mathlib

/-!
Verification of the `ficharfactorial` time-tracking automation.

This file gives a shallow embedding of the parts of the repository that the
verified properties are about:

* `src/src/time-tracker.ts` — the Factorial-specific row locator, popup form
  filler, submission verification, `formatBreakTime`, `getCurrentWeekEntries`,
  and the public `logWorkHours` / `logAnyMissingHours` wrappers;
* `src/src/factorial-automation.ts` — the `login` sequence;
* the configuration module (`validateConfig`) and the `log-custom` CLI action
  from `src/src/index.ts`.

DOM pages are modelled as explicit lists of the elements the code queries
(spans with their enclosing table row, buttons, inputs), Playwright queries
become list scans in DOM order, thrown JavaScript errors become
`Except String`, and `try/catch` blocks become explicit matches on the
`Except` value.  Fixed sleeps, screenshots and log statements have no
observable effect on the results proved here and are elided.
-/

namespace Fichar

/-- JS `hay.includes(sub)` for strings: `sub` occurs as a contiguous
substring of `hay`. -/
def strIncludes (hay sub : String) : Bool :=
  decide (sub.data <:+: hay.data)

/-- JS `s.includes('-')`-style test for a single character: substring
containment of a one-character string is membership of that character. -/
def charIncludes (s : String) (c : Char) : Bool :=
  decide (c ∈ s.data)

/-- JS `String.prototype.toLowerCase`, restricted to the characters this
repository actually lowercases (ASCII letters plus the `Ñ` of "Añadir"). -/
def jsLowerChar (c : Char) : Char :=
  if c = 'Ñ' then 'ñ' else c.toLower

/-- Lowercase a whole string, JS-style (see `jsLowerChar`). -/
def jsToLower (s : String) : String :=
  String.mk (s.data.map jsLowerChar)

/-- Decimal digits of a natural number, most significant first; mirrors the
digit sequence produced by JS `Number.prototype.toString`. -/
def decDigits (n : Nat) : List Char :=
  if _h : n < 10 then [Nat.digitChar n]
  else decDigits (n / 10) ++ [Nat.digitChar (n % 10)]
  decreasing_by
    exact Nat.div_lt_self (by omega) (by omega)

/-- JS `n.toString()` for a non-negative integer. -/
def natToDec (n : Nat) : String :=
  String.mk (decDigits n)

/-- JS `s.padStart(2, '0')`: pad on the left with `'0'` until the length is
at least 2. -/
def padStart2 (s : String) : String :=
  if s.length = 0 then "00"
  else if s.length = 1 then "0" ++ s
  else s

/-- `formatBreakTime` from `src/src/time-tracker.ts` (lines 1253-1257):
`hours = Math.floor(minutes / 60)`, `mins = minutes % 60`, each rendered in
decimal, padded with `padStart(2, '0')`, and joined with `":"`. -/
def formatBreakTime (minutes : Nat) : String :=
  padStart2 (natToDec (minutes / 60)) ++ ":" ++ padStart2 (natToDec (minutes % 60))

/-- Value of a decimal digit string read left to right, the way a decimal
parser folds digits (used to state that `formatBreakTime`'s fields denote
the right numbers). -/
def decValue (l : List Char) : Nat :=
  l.foldl (fun acc c => acc * 10 + (c.toNat - 48)) 0

/-- The work-entry record (`WorkEntry` interface, `src/src/time-tracker.ts`
lines 5-11): date, start time, end time, optional break minutes, optional
description. -/
structure WorkEntry where
  date : String
  startTime : String
  endTime : String
  breakMinutes : Option Nat
  description : Option String
deriving DecidableEq

/-- The `workHours` section of the configuration (`config.ts`). -/
structure WorkHoursConfig where
  defaultStartTime : String
  defaultEndTime : String
  defaultBreakMinutes : Nat
deriving DecidableEq

/-- JS `Date.prototype.getDay` on an absolute day number (days since the
Unix epoch, which fell on a Thursday): 0 = Sunday, ..., 6 = Saturday.
Dates are modelled as absolute day numbers; time of day and time zone are
abstracted away. -/
def jsDow (d : Int) : Int :=
  (d + 4) % 7

/-- `getCurrentWeekEntries` (`src/src/time-tracker.ts` lines 1272-1299).
`dateStr` renders an absolute day number the way
`toISOString().split('T')[0]` renders a `Date`.  The source computes
`diff = getDate() - dayOfWeek + (dayOfWeek === 0 ? -6 : 1)` and calls
`setDate(diff)`, which amounts to adding `diff - getDate()` days, then
pushes five entries for `startOfWeek + i`, `i = 0..4`, each with the
configured defaults and a `Work day - <date>` description. -/
def getCurrentWeekEntries (dateStr : Int → String) (cfg : WorkHoursConfig)
    (today : Int) : List WorkEntry :=
  let dayOfWeek := jsDow today
  let startOfWeek := today - dayOfWeek + (if dayOfWeek = 0 then (-6 : Int) else 1)
  (List.range 5).map fun i =>
    { date := dateStr (startOfWeek + i)
      startTime := cfg.defaultStartTime
      endTime := cfg.defaultEndTime
      breakMinutes := some cfg.defaultBreakMinutes
      description := some ("Work day - " ++ dateStr (startOfWeek + i)) }

/-- A table row of the attendance page: its identity and whether it carries
the `[data-intercom-target="attendance-row-toggle"]` marker. -/
structure Row where
  id : Nat
  hasToggle : Bool
deriving DecidableEq

/-- A `span` matched by one of the missing-hours selectors: its text content
(`""` for a null `textContent`) and the enclosing `TR` found by walking up
`parentElement` (none when no `TR` encloses it). -/
structure Span where
  text : String
  parentRow : Option Row
deriving DecidableEq

/-- A button-like element: text content, `type` attribute, whether it has
`role="button"`, and visibility. -/
structure Button where
  text : String
  typeAttr : String
  roleButton : Bool
  visible : Bool
deriving DecidableEq

/-- An `input` element: `type` attribute, current `value`, `placeholder`,
`name`, `id`, and visibility. -/
structure Input where
  typeAttr : String
  value : String
  placeholder : String
  name : String
  id : String
  visible : Bool
deriving DecidableEq

/-- The popup editor surface: its inputs and buttons, in DOM order. -/
structure PopupPage where
  inputs : List Input
  buttons : List Button
deriving DecidableEq

/-- The span-text test of the row locator (`time-tracker.ts` line 282):
`spanText.includes('-') && spanText.includes('h')`.  (The preceding
truthiness test on `spanText` is subsumed: the empty string contains
neither character.) -/
def markerText (s : String) : Bool :=
  charIncludes s '-' && charIncludes s 'h'

/-- The toggle validation applied to a candidate row (line 320-322):
`row && row.querySelector('[data-intercom-target="attendance-row-toggle"]') !== null`.
A handle wrapping `null` (no enclosing `TR`) evaluates to `false`. -/
def spanParentToggled (sp : Span) : Bool :=
  match sp.parentRow with
  | some r => r.hasToggle
  | none => false

/-- A span that passes both the text test and the toggle validation. -/
def validatedSpan (sp : Span) : Bool :=
  markerText sp.text && spanParentToggled sp

/-- The inner loop of the row locator (lines 279-347): scan the spans
returned by one selector in DOM order; on a span whose text passes
`markerText`, walk up to the enclosing `TR`; reject it (reset `targetRow`
to `null` and continue) when the toggle validation fails, otherwise keep it
and break.  The `jsonValue()` null re-check after a successful toggle
validation can never fire (the row is non-null there) and is elided. -/
def scanSpans : List Span → Option Row
  | [] => none
  | sp :: rest =>
    if markerText sp.text then
      match sp.parentRow with
      | some row => if row.hasToggle then some row else scanSpans rest
      | none => scanSpans rest
    else scanSpans rest

/-- The outer loop of the row locator (lines 274-353): try each
missing-hours selector in listed order; `matches` holds, per selector, the
spans `page.$$` returns for it; stop at the first selector whose scan
validates a row. -/
def findTargetRow : List (List Span) → Option Row
  | [] => none
  | sel :: rest =>
    match scanSpans sel with
    | some r => some r
    | none => findTargetRow rest

/-- Scan for `'h'` after at least one decimal digit (tail of a `-Nh`
pattern). -/
def afterDigitNh : List Char → Bool
  | [] => false
  | c :: rest => if c = 'h' then true else if c.isDigit then afterDigitNh rest else false

/-- After a `'-'`: at least one digit, then more digits, then `'h'`. -/
def startDigitsNh : List Char → Bool
  | [] => false
  | c :: rest => c.isDigit && afterDigitNh rest

/-- Whether a `-Nh` pattern (a `'-'` immediately followed by one or more
decimal digits and then `'h'`, e.g. `"-8h"`) occurs in the character list. -/
def hasMinusNhAux : List Char → Bool
  | [] => false
  | c :: rest =>
    if c = '-' then startDigitsNh rest || hasMinusNhAux rest
    else hasMinusNhAux rest

/-- Whether a string contains a `-Nh` missing-hours pattern such as
`"-8h"`.  This is the spec-side reading of "the missing-hours `-Nh` text"
(spec section 8 and glossary). -/
def containsMinusNh (s : String) : Bool :=
  hasMinusNhAux s.data

/-- The verification re-read of the target row (lines 511-520): the row
still shows missing hours when some `span` in it has text containing both
`'-'` and `'h'`. -/
def stillHasMissingHours (spans : List String) : Bool :=
  spans.any fun s => charIncludes s '-' && charIncludes s 'h'

/-- The verification step's verdict (lines 522-528): success exactly when
the missing-hours indicator is gone from the row. -/
def verifySubmission (spans : List String) : Bool :=
  !stillHasMissingHours spans

/-- `input[type="time"]`. -/
def isTimeInput (i : Input) : Bool :=
  i.typeAttr == "time"

/-- Set the `value` of the input at position `idx` of the list (used for
`allInputs[0].fill(...)` / `allInputs[1].fill(...)`). -/
def updateVal : Nat → String → List Input → List Input
  | _, _, [] => []
  | 0, v, i :: rest => { i with value := v } :: rest
  | n + 1, v, i :: rest => i :: updateVal n v rest

/-- Set the `value` of the `idx`-th input of type `time` (counting from
`k`), leaving every other input untouched. -/
def setTimeValueAux (idx : Nat) (v : String) : List Input → Nat → List Input
  | [], _ => []
  | i :: rest, k =>
    if isTimeInput i then
      (if k = idx then { i with value := v } else i) :: setTimeValueAux idx v rest (k + 1)
    else i :: setTimeValueAux idx v rest k

/-- `timeInputs[idx].fill(v)`: update the `idx`-th time-type input. -/
def setTimeValue (idx : Nat) (v : String) (l : List Input) : List Input :=
  setTimeValueAux idx v l 0

/-- The start-time last-resort selector list (lines 631-636):
`input[placeholder*="inicio"]`, `input[placeholder*="start"]`,
`input[name*="start"]`, `input[id*="start"]`. -/
def startTimeSelPreds : List (Input → Bool) :=
  [ fun i => strIncludes i.placeholder "inicio"
  , fun i => strIncludes i.placeholder "start"
  , fun i => strIncludes i.name "start"
  , fun i => strIncludes i.id "start" ]

/-- The end-time last-resort selector list (lines 638-643). -/
def endTimeSelPreds : List (Input → Bool) :=
  [ fun i => strIncludes i.placeholder "fin"
  , fun i => strIncludes i.placeholder "end"
  , fun i => strIncludes i.name "end"
  , fun i => strIncludes i.id "end" ]

/-- One last-resort fill loop (lines 646-661 / 664-679): for each selector
in order, `page.$` yields the first matching input; if it is visible, fill
it and stop, otherwise try the next selector.  When the list is exhausted
nothing is filled (the caller merely logs a warning). -/
def fillBySelectors : List (Input → Bool) → String → List Input → List Input
  | [], _, inputs => inputs
  | p :: rest, v, inputs =>
    match inputs.findIdx? p with
    | some j =>
      match inputs[j]? with
      | some el => if el.visible then updateVal j v inputs else fillBySelectors rest v inputs
      | none => fillBySelectors rest v inputs
    | none => fillBySelectors rest v inputs

/-- The time-filling portion of `fillFactorialPopup` (lines 582-684):
with at least two `input[type="time"]` elements, fill the first with the
start time and the second with the end time; otherwise with at least two
inputs of any type, fill the first two; otherwise fall back to the
start/end selector lists, warn if incomplete, and continue either way. -/
def fillFactorialPopupTimes (inputs : List Input) (e : WorkEntry) : List Input :=
  let timeInputs := inputs.filter isTimeInput
  if 2 ≤ timeInputs.length then
    setTimeValue 1 e.endTime (setTimeValue 0 e.startTime inputs)
  else if 2 ≤ inputs.length then
    updateVal 1 e.endTime (updateVal 0 e.startTime inputs)
  else
    fillBySelectors endTimeSelPreds e.endTime
      (fillBySelectors startTimeSelPreds e.startTime inputs)

/-- Lookup loop in the `waitForSelector` style (used for "Añadir", lines
462-472): each selector in order waits for a visible match; a selector that
throws (the invalid `button:contains(...)`) contributes nothing. -/
def findByPredsWait (preds : List (Button → Bool)) (bs : List Button) : Option Button :=
  match preds with
  | [] => none
  | p :: rest =>
    match bs.find? (fun b => p b && b.visible) with
    | some b => some b
    | none => findByPredsWait rest bs

/-- Lookup loop in the `page.$` style (used for "Aplicar", lines 696-706):
each selector in order takes its first match; an invisible first match
falls through to the next selector. -/
def findByPredsDollar (preds : List (Button → Bool)) (bs : List Button) : Option Button :=
  match preds with
  | [] => none
  | p :: rest =>
    match bs.find? p with
    | some b => if b.visible then some b else findByPredsDollar rest bs
    | none => findByPredsDollar rest bs

/-- The "Añadir" selector list (lines 454-459): three text-based selectors
and the invalid `button:contains("Añadir")`, which Playwright rejects (the
thrown error is caught and the selector skipped). -/
def addButtonPreds : List (Button → Bool) :=
  [ fun b => strIncludes b.text "Añadir"
  , fun b => strIncludes b.text "Añadir"
  , fun b => b.roleButton && strIncludes b.text "Añadir"
  , fun _ => false ]

/-- The "Añadir" lookup (lines 461-489): the selector list, then the
generic fallback scanning every button for text whose trimmed lowercase
form contains `"añadir"`. -/
def findAddButton (bs : List Button) : Option Button :=
  match findByPredsWait addButtonPreds bs with
  | some b => some b
  | none => bs.find? fun b => strIncludes (jsToLower b.text.trim) "añadir"

/-- The "Aplicar" selector list (lines 688-693). -/
def applyButtonPreds : List (Button → Bool) :=
  [ fun b => strIncludes b.text "Aplicar"
  , fun b => strIncludes b.text "Aplicar"
  , fun b => b.roleButton && strIncludes b.text "Aplicar"
  , fun b => b.typeAttr == "submit" ]

/-- The "Aplicar" lookup (lines 695-723): the selector list, then the
generic fallback scanning every button for text whose trimmed lowercase
form contains `"aplicar"`. -/
def findApplyButton (bs : List Button) : Option Button :=
  match findByPredsDollar applyButtonPreds bs with
  | some b => some b
  | none => bs.find? fun b => strIncludes (jsToLower b.text.trim) "aplicar"

/-- The body of `fillFactorialPopup` (lines 544-753) as an `Except`: fill
the time inputs, then look for the "Aplicar" button; a missing button is
the thrown `Could not find "Aplicar" button` error; once it is clicked the
function returns `true` whether or not success indicators are found
("assume form was submitted").  The work-type step (lines 549-580) only
types into a work-type element and cannot affect the value the time fill
subsequently writes; the inputs list passed here is the popup state when
the time fill starts. -/
def fillFactorialPopupE (popup : PopupPage) (e : WorkEntry) :
    Except String (List Input) :=
  let filled := fillFactorialPopupTimes popup.inputs e
  match findApplyButton popup.buttons with
  | none => Except.error "Could not find \"Aplicar\" button to submit the form"
  | some _ => Except.ok filled

/-- `fillFactorialPopup`'s returned boolean: its outer `catch` (lines
749-752) turns any thrown error into `false`. -/
def fillFactorialPopup (popup : PopupPage) (e : WorkEntry) : Bool :=
  match fillFactorialPopupE popup e with
  | Except.ok _ => true
  | Except.error _ => false

/-- The UI actions `handleFactorialTimeEntry` performs after locating a
row: clicking the row toggle, clicking "Añadir" (opening the editor), and
attempting to fill/submit the popup form. -/
inductive Action where
  | toggleClicked
  | addClicked
  | popupFillAttempted
deriving DecidableEq

/-- The page state `handleFactorialTimeEntry` runs against: the spans each
missing-hours selector matches, the page's buttons, the popup contents
after "Añadir" is clicked, the entry being logged, the target row's span
texts when the verification re-reads it, and whether that re-read throws. -/
structure FactorialEnv where
  selMatches : List (List Span)
  buttons : List Button
  popup : PopupPage
  entry : WorkEntry
  rowSpansAfter : List String
  verifyThrows : Bool
deriving DecidableEq

/-- `handleFactorialTimeEntry` (lines 250-542) as an `Except` carrying the
actions performed: no validated row means "nothing to do", returned as
success with no actions (lines 355-358); otherwise the row's toggle is
clicked, the "Añadir" button is looked up (a miss is the thrown
`Could not find "Añadir" button` error, line 492), the popup is filled, and
on a `true` fill result the verification step decides the outcome unless
its row re-read throws, in which case the fill result is passed through
(lines 503-536).  Modal-dismissal attempts, screenshots and waits have no
effect on the result and are elided. -/
def handleFactorialTimeEntryE (env : FactorialEnv) :
    Except (String × List Action) (Bool × List Action) :=
  match findTargetRow env.selMatches with
  | none => Except.ok (true, [])
  | some _row =>
    let acts0 := [Action.toggleClicked]
    match findAddButton env.buttons with
    | none => Except.error ("Could not find \"Añadir\" button after clicking toggle", acts0)
    | some _ =>
      let acts := acts0 ++ [Action.addClicked, Action.popupFillAttempted]
      let fillResult := fillFactorialPopup env.popup env.entry
      if fillResult then
        if env.verifyThrows then Except.ok (fillResult, acts)
        else Except.ok (verifySubmission env.rowSpansAfter, acts)
      else Except.ok (fillResult, acts)

/-- `handleFactorialTimeEntry`'s returned boolean, with the performed
actions: its outer `catch` (lines 538-541) turns the thrown error into
`false`. -/
def handleFactorialTimeEntry (env : FactorialEnv) : Bool × List Action :=
  match handleFactorialTimeEntryE env with
  | Except.ok r => r
  | Except.error (_, a) => (false, a)

/-- The page state `login` (`src/src/factorial-automation.ts`) runs
against: per-selector lookup results for the email input, the password
input and the submit button (`none` = that selector matched nothing), the
already-logged-in check, the post-submit logged-in check, and the
per-selector error-element text contents. -/
structure LoginEnv where
  emailResults : List (Option Unit)
  alreadyLoggedIn : Bool
  passwordResults : List (Option Unit)
  buttonResults : List (Option Unit)
  loginSucceeds : Bool
  errorResults : List (Option String)
deriving DecidableEq

/-- First selector hit in a fallback list. -/
def firstHit {α : Type} (rs : List (Option α)) : Option α :=
  rs.findSome? id

/-- The error-message scan of `login` (lines 198-209): for each error
selector, the loop body throws `Login failed: <text>` when an element is
found — but the `throw` sits inside the same `try` block, so the
`catch (e) \x7b /* Continue checking other selectors */ \x7d` swallows it and
the loop always runs to completion without surfacing any text. -/
def scanLoginErrors : List (Option String) → Option String
  | [] => none
  | r :: rest =>
    let attempt : Except String Unit :=
      match r with
      | some t => Except.error ("Login failed: " ++ t)
      | none => Except.ok ()
    match attempt with
    | Except.error _ => scanLoginErrors rest
    | Except.ok _ => scanLoginErrors rest

/-- `login` (`src/src/factorial-automation.ts` lines 41-219): find the
email input (falling back to the already-logged-in check), find the
password input, submit (button click or Enter-key fallback — both
continue), then check the logged-in state; on failure run the
error-message scan and throw the scanned message if any, else the generic
`Login failed - please check credentials`.  Navigation retries are elided
(navigation is assumed to have succeeded; a final failure there is its own
thrown error before any lookup). -/
def login (env : LoginEnv) : Except String Bool :=
  match firstHit env.emailResults with
  | none =>
    if env.alreadyLoggedIn then Except.ok true
    else Except.error "Could not find email input field. The page structure might have changed."
  | some _ =>
    match firstHit env.passwordResults with
    | none => Except.error "Could not find password input field"
    | some _ =>
      if env.loginSucceeds then Except.ok true
      else
        match scanLoginErrors env.errorResults with
        | some msg => Except.error msg
        | none => Except.error "Login failed - please check credentials"

/-- The configuration fields `validateConfig` inspects. -/
structure AppConfig where
  email : String
  password : String
deriving DecidableEq

/-- `validateConfig` from the configuration module: collect an error for a
missing email and for a missing password; throw `Configuration errors:`
joined with the collected messages when any exist. -/
def validateConfig (c : AppConfig) : Except String Unit :=
  let errors :=
    (if c.email = "" then ["FACTORIAL_EMAIL is required"] else []) ++
    (if c.password = "" then ["FACTORIAL_PASSWORD is required"] else [])
  if errors.length > 0 then
    Except.error ("Configuration errors:\n" ++ String.intercalate "\n" errors)
  else Except.ok ()

/-- The options of the `log-custom` CLI command (start/end times, break
minutes, optional description); the date is passed separately. -/
structure LogCustomOptions where
  startOpt : String
  endOpt : String
  breakOpt : Nat
  description : Option String
deriving DecidableEq

/-- The work entry the `log-custom` action builds (`src/src/index.ts`
lines 208-214): the date argument is passed through unchanged. -/
def logCustomEntry (dateArg : String) (opts : LogCustomOptions) : WorkEntry :=
  { date := dateArg
    startTime := opts.startOpt
    endTime := opts.endOpt
    breakMinutes := some opts.breakOpt
    description := some (opts.description.getD ("Work day - " ++ dateArg)) }

/-- Observable milestones of the `log-custom` action. -/
inductive CliEvent where
  | configRejected (msg : String)
  | browserInitialized
  | sessionFailed
  | workflowStarted (entry : WorkEntry)
deriving DecidableEq

/-- The `log-custom` action (`src/src/index.ts` lines 177-234):
`validateConfig()` first — a thrown configuration error is printed and the
process exits before `automation.initialize()` ever runs; otherwise the
browser is initialized, login and navigation run (collapsed into the
`sessionOk` oracle; their failure exits after the browser was opened), the
entry is built from the date argument and options, and the time-tracking
workflow starts. -/
def logCustomTrace (c : AppConfig) (dateArg : String) (opts : LogCustomOptions)
    (sessionOk : Bool) : List CliEvent :=
  match validateConfig c with
  | Except.error e => [CliEvent.configRejected e]
  | Except.ok _ =>
    if sessionOk then
      [CliEvent.browserInitialized, CliEvent.workflowStarted (logCustomEntry dateArg opts)]
    else [CliEvent.browserInitialized, CliEvent.sessionFailed]

/-- Spec-side: a string in valid `YYYY-MM-DD` shape — four digits, `'-'`,
two digits, `'-'`, two digits. -/
def isValidDateFormat (s : String) : Bool :=
  match s.data with
  | [a, b, c, d, e, f, g, h2, i, j] =>
    a.isDigit && b.isDigit && c.isDigit && d.isDigit && e = '-' &&
    f.isDigit && g.isDigit && h2 = '-' && i.isDigit && j.isDigit
  | _ => false

/-- The state `logWorkHours` / `logAnyMissingHours` run against: the
Factorial page environment plus whether the initial navigation to the
attendance page throws (the only failure before the Factorial workflow
runs; the popup-dismissal attempt has its own `catch` and never escapes). -/
structure OuterEnv where
  fenv : FactorialEnv
  navFails : Bool
deriving DecidableEq

/-- The body of `logWorkHours` (`src/src/time-tracker.ts` lines 16-74) as
an `Except`: a navigation failure throws; otherwise the Factorial workflow
runs, a `false` result becomes the thrown `Factorial workflow failed`,
which the inner `catch` rethrows as
`Could not log work hours using Factorial workflow`. -/
def logWorkHoursE (env : OuterEnv) : Except String Bool :=
  if env.navFails then Except.error "Navigation to the attendance page failed"
  else
    match (if (handleFactorialTimeEntry env.fenv).1 then Except.ok true
           else Except.error "Factorial workflow failed") with
    | Except.ok s => Except.ok s
    | Except.error _ => Except.error "Could not log work hours using Factorial workflow"

/-- `logWorkHours`'s returned boolean: the outer `catch` (lines 70-73)
turns every thrown error into `false`. -/
def logWorkHours (env : OuterEnv) : Bool :=
  match logWorkHoursE env with
  | Except.ok b => b
  | Except.error _ => false

/-- The default entry `logAnyMissingHours` builds (lines 1310-1316). -/
def anyMissingDefaultEntry (cfg : WorkHoursConfig) (todayStr : String) : WorkEntry :=
  { date := todayStr
    startTime := cfg.defaultStartTime
    endTime := cfg.defaultEndTime
    breakMinutes := some cfg.defaultBreakMinutes
    description := some "Automated work hours entry" }

/-- The body of `logAnyMissingHours` (lines 1305-1355) as an `Except`: a
navigation failure throws; otherwise the Factorial workflow runs on the
default entry and its boolean is returned. -/
def logAnyMissingHoursE (env : OuterEnv) (cfg : WorkHoursConfig)
    (todayStr : String) : Except String Bool :=
  if env.navFails then Except.error "Navigation to the attendance page failed"
  else
    Except.ok (handleFactorialTimeEntry
      { env.fenv with entry := anyMissingDefaultEntry cfg todayStr }).1

/-- `logAnyMissingHours`'s returned boolean: the outer `catch` (lines
1351-1354) turns every thrown error into `false`. -/
def logAnyMissingHours (env : OuterEnv) (cfg : WorkHoursConfig)
    (todayStr : String) : Bool :=
  match logAnyMissingHoursE env cfg todayStr with
  | Except.ok b => b
  | Except.error _ => false

theorem decValue_append (a : List Char) (c : Char) :
    decValue (a ++ [c]) = decValue a * 10 + (c.toNat - 48) := by
  simp [decValue, List.foldl_append]

theorem decDigits_ne_nil (n : Nat) : decDigits n ≠ [] := by
  rw [decDigits]
  split <;> simp

theorem decDigits_lt_ten (n : Nat) (h : n < 10) : decDigits n = [Nat.digitChar n] := by
  rw [decDigits]
  simp [h]

theorem decDigits_ge_ten (n : Nat) (h : ¬ n < 10) :
    decDigits n = decDigits (n / 10) ++ [Nat.digitChar (n % 10)] := by
  rw [decDigits]
  simp [h]

theorem digitChar_isDigit (d : Nat) (h : d < 10) : (Nat.digitChar d).isDigit = true := by
  interval_cases d <;> decide

theorem digitChar_val (d : Nat) (h : d < 10) : (Nat.digitChar d).toNat - 48 = d := by
  interval_cases d <;> decide

theorem decDigits_all_digits (n : Nat) : (decDigits n).all Char.isDigit = true := by
  induction n using Nat.strong_induction_on with
  | _ n ih =>
    by_cases h : n < 10
    · rw [decDigits_lt_ten n h]
      simp [digitChar_isDigit n h]
    · rw [decDigits_ge_ten n h]
      have h1 := ih (n / 10) (Nat.div_lt_self (by omega) (by omega))
      have h2 := digitChar_isDigit (n % 10) (Nat.mod_lt _ (by omega))
      simp [List.all_append, h1, h2]

theorem decValue_decDigits (n : Nat) : decValue (decDigits n) = n := by
  induction n using Nat.strong_induction_on with
  | _ n ih =>
    by_cases h : n < 10
    · rw [decDigits_lt_ten n h]
      have := digitChar_val n h
      simp [decValue, this]
    · rw [decDigits_ge_ten n h, decValue_append]
      rw [ih (n / 10) (Nat.div_lt_self (by omega) (by omega))]
      rw [digitChar_val (n % 10) (Nat.mod_lt _ (by omega))]
      omega

theorem natToDec_length_pos (n : Nat) : 1 ≤ (natToDec n).length := by
  have := decDigits_ne_nil n
  simp only [natToDec, String.length]
  cases hd : decDigits n with
  | nil => exact absurd hd this
  | cons a l => simp

theorem padStart2_length (s : String) : 2 ≤ (padStart2 s).length := by
  unfold padStart2
  split
  · decide
  · split
    · rename_i h0 h1
      have e : ("0").length = 1 := rfl
      rw [String.length_append, e]
      omega
    · rename_i h0 h1
      omega

theorem padStart2_decValue (s : String) :
    decValue (padStart2 s).data = decValue s.data := by
  unfold padStart2
  split
  · rename_i h0
    have : s.data = [] := by
      have : s.data.length = 0 := h0
      exact List.length_eq_zero.mp this
    rw [this]
    decide
  · split
    · simp [decValue]
    · rfl

theorem padStart2_digits (s : String) (h : s.data.all Char.isDigit = true) :
    (padStart2 s).data.all Char.isDigit = true := by
  unfold padStart2
  split
  · decide
  · split
    · simp_all
    · exact h

theorem decValue_natToDec (n : Nat) : decValue (natToDec n).data = n := by
  show decValue (decDigits n) = n
  exact decValue_decDigits n

theorem natToDec_all_digits (n : Nat) : (natToDec n).data.all Char.isDigit = true := by
  show (decDigits n).all Char.isDigit = true
  exact decDigits_all_digits n

/-- C8: for every non-negative integer number of minutes, `formatBreakTime`
returns `"HH:MM"` where `HH` denotes `minutes / 60` (integer division) and
`MM` denotes `minutes % 60`, each consisting of decimal digits zero-padded to
at least two characters. -/
theorem formatBreakTime_correct (m : Nat) :
    ∃ hh mm : String,
      formatBreakTime m = hh ++ ":" ++ mm ∧
      2 ≤ hh.length ∧ 2 ≤ mm.length ∧
      hh.data.all Char.isDigit = true ∧ mm.data.all Char.isDigit = true ∧
      decValue hh.data = m / 60 ∧ decValue mm.data = m % 60 := by
  refine ⟨padStart2 (natToDec (m / 60)), padStart2 (natToDec (m % 60)),
    rfl, padStart2_length _, padStart2_length _,
    padStart2_digits _ (natToDec_all_digits _),
    padStart2_digits _ (natToDec_all_digits _), ?_, ?_⟩
  · rw [padStart2_decValue, decValue_natToDec]
  · rw [padStart2_decValue, decValue_natToDec]

/-- C9: `getCurrentWeekEntries` always returns exactly 5 entries, whose
dates are the Monday through Friday (consecutive days starting at a Monday)
of the week containing `today` (weeks running Monday..Sunday), each with the
configured default start time, end time and break minutes, and a
description derived from its date. -/
theorem getCurrentWeekEntries_correct (dateStr : Int → String)
    (cfg : WorkHoursConfig) (today : Int) :
    ∃ monday : Int,
      jsDow monday = 1 ∧ monday ≤ today ∧ today ≤ monday + 6 ∧
      getCurrentWeekEntries dateStr cfg today = (List.range 5).map (fun i =>
        { date := dateStr (monday + i)
          startTime := cfg.defaultStartTime
          endTime := cfg.defaultEndTime
          breakMinutes := some cfg.defaultBreakMinutes
          description := some ("Work day - " ++ dateStr (monday + i)) }) ∧
      (getCurrentWeekEntries dateStr cfg today).length = 5 := by
  refine ⟨today - jsDow today + (if jsDow today = 0 then (-6 : Int) else 1),
    ?_, ?_, ?_, rfl, rfl⟩
  · unfold jsDow
    split <;> omega
  · unfold jsDow
    split <;> omega
  · unfold jsDow
    split <;> omega

theorem validatedSpan_parentRow (sp : Span) (h : validatedSpan sp = true) :
    ∃ r : Row, sp.parentRow = some r ∧ r.hasToggle = true := by
  simp only [validatedSpan, Bool.and_eq_true] at h
  obtain ⟨-, h2⟩ := h
  unfold spanParentToggled at h2
  cases hp : sp.parentRow with
  | none => rw [hp] at h2; exact absurd h2 (by simp)
  | some r => rw [hp] at h2; exact ⟨r, rfl, h2⟩

theorem scanSpans_eq_find (l : List Span) :
    scanSpans l = (l.find? validatedSpan).bind Span.parentRow := by
  induction l with
  | nil => rfl
  | cons sp rest ih =>
    by_cases hm : markerText sp.text = true
    · cases hp : sp.parentRow with
      | none =>
        have hv : validatedSpan sp = false := by
          simp [validatedSpan, spanParentToggled, hp]
        simp [scanSpans, hm, hp, List.find?_cons, hv, ih]
      | some row =>
        by_cases ht : row.hasToggle = true
        · have hv : validatedSpan sp = true := by
            simp [validatedSpan, spanParentToggled, hp, hm, ht]
          simp [scanSpans, hm, hp, ht, List.find?_cons, hv]
        · have hv : validatedSpan sp = false := by
            simp [validatedSpan, spanParentToggled, hp]
            intro _
            simpa using ht
          simp [scanSpans, hm, hp, ht, List.find?_cons, hv, ih]
    · have hv : validatedSpan sp = false := by
        simp [validatedSpan]
        intro h
        exact absurd h hm
      simp [scanSpans, hm, List.find?_cons, hv, ih]

theorem findTargetRow_eq_find (ms : List (List Span)) :
    findTargetRow ms = (ms.flatten.find? validatedSpan).bind Span.parentRow := by
  induction ms with
  | nil => rfl
  | cons sel rest ih =>
    rw [List.flatten_cons, List.find?_append]
    cases hs : sel.find? validatedSpan with
    | none =>
      have h0 : scanSpans sel = none := by
        rw [scanSpans_eq_find, hs]; rfl
      simp [findTargetRow, h0, ih, Option.or]
    | some sp =>
      have hv := List.find?_some hs
      obtain ⟨r, hr, -⟩ := validatedSpan_parentRow sp hv
      have h0 : scanSpans sel = some r := by
        rw [scanSpans_eq_find, hs]
        simp [hr]
      simp [findTargetRow, h0, Option.or, hr]

/-- A `"-8h"` substring yields both a `'-'` and an `'h'` character, hence
passes the locator's span-text test. -/
theorem markerText_of_8h (s : String) (h : strIncludes s "-8h" = true) :
    markerText s = true := by
  unfold strIncludes at h
  have hinf : ("-8h".data) <:+: s.data := of_decide_eq_true h
  obtain ⟨pre, post, hok⟩ := hinf
  have hdash : '-' ∈ s.data := by rw [← hok]; simp [String.data]
  have hh : 'h' ∈ s.data := by rw [← hok]; simp [String.data]
  simp [markerText, charIncludes, hdash, hh]

/-- C2: on a page whose selector matches include a span with the `"-8h"`
missing-hours marker inside a toggled (data) row, the row locator selects
the row of the first span — in selector-list order, then DOM order — that
passes the missing-hours text test and whose row carries the toggle
marker, and it never selects a row lacking the toggle marker. -/
theorem rowLocator_first_validated (ms : List (List Span))
    (hdata : ∃ sp ∈ ms.flatten, strIncludes sp.text "-8h" = true ∧
      spanParentToggled sp = true) :
    (∀ r : Row, findTargetRow ms = some r → r.hasToggle = true) ∧
    ∃ sp : Span, ms.flatten.find? validatedSpan = some sp ∧
      validatedSpan sp = true ∧ findTargetRow ms = sp.parentRow := by
  constructor
  · intro r hr
    rw [findTargetRow_eq_find] at hr
    cases hfind : ms.flatten.find? validatedSpan with
    | none => rw [hfind] at hr; exact absurd hr (by simp)
    | some sp =>
      rw [hfind] at hr
      have hv := List.find?_some hfind
      obtain ⟨r', hr', ht'⟩ := validatedSpan_parentRow sp hv
      rw [show ((some sp).bind Span.parentRow) = sp.parentRow from rfl, hr'] at hr
      cases hr
      exact ht'
  · obtain ⟨sp0, hmem, h8, htog⟩ := hdata
    have hv0 : validatedSpan sp0 = true := by
      simp [validatedSpan, markerText_of_8h sp0.text h8, htog]
    have hsome : (ms.flatten.find? validatedSpan).isSome := by
      rw [List.find?_isSome]
      exact ⟨sp0, hmem, hv0⟩
    obtain ⟨sp, hsp⟩ := Option.isSome_iff_exists.mp hsome
    refine ⟨sp, hsp, List.find?_some hsp, ?_⟩
    rw [findTargetRow_eq_find, hsp]
    rfl

/-- Witness for C2 at a one-selector page holding a header span (`"-8h"`
but no toggled row) followed by a data span. -/
theorem rowLocator_first_validated_witness :
    (∀ r : Row,
      findTargetRow [[⟨"-8h", some ⟨0, false⟩⟩, ⟨"-8h", some ⟨1, true⟩⟩]] = some r →
        r.hasToggle = true) ∧
    ∃ sp : Span,
      ([[⟨"-8h", some ⟨0, false⟩⟩, ⟨"-8h", some ⟨1, true⟩⟩]] :
        List (List Span)).flatten.find? validatedSpan = some sp ∧
      validatedSpan sp = true ∧
      findTargetRow [[⟨"-8h", some ⟨0, false⟩⟩, ⟨"-8h", some ⟨1, true⟩⟩]] = sp.parentRow :=
  rowLocator_first_validated _ ⟨⟨"-8h", some ⟨1, true⟩⟩, by decide, by decide, by decide⟩

/-- C3: when no candidate selector yields a validated missing-hours row,
`handleFactorialTimeEntry` returns `true` having performed no UI action:
no toggle click, no editor opened, no form filled. -/
theorem nothingToDo_success (env : FactorialEnv)
    (h : findTargetRow env.selMatches = none) :
    handleFactorialTimeEntry env = (true, []) := by
  unfold handleFactorialTimeEntry handleFactorialTimeEntryE
  rw [h]

/-- Witness for C3 at a page with no selector matches at all. -/
theorem nothingToDo_success_witness :
    handleFactorialTimeEntry
      ⟨[], [], ⟨[], []⟩, ⟨"2024-01-01", "09:00", "17:00", some 60, none⟩, [], false⟩
      = (true, []) :=
  nothingToDo_success _ rfl

theorem afterDigitNh_mem (l : List Char) (h : afterDigitNh l = true) : 'h' ∈ l := by
  induction l with
  | nil => exact absurd h (by simp [afterDigitNh])
  | cons c rest ih =>
    unfold afterDigitNh at h
    by_cases hc : c = 'h'
    · rw [hc]; exact List.mem_cons_self _ _
    · rw [if_neg hc] at h
      by_cases hd : c.isDigit = true
      · rw [if_pos hd] at h
        exact List.mem_cons_of_mem _ (ih h)
      · rw [if_neg hd] at h
        exact absurd h (by simp)

theorem startDigitsNh_mem (l : List Char) (h : startDigitsNh l = true) : 'h' ∈ l := by
  cases l with
  | nil => exact absurd h (by simp [startDigitsNh])
  | cons c rest =>
    unfold startDigitsNh at h
    obtain ⟨-, h2⟩ := Bool.and_eq_true _ _ ▸ h
    exact List.mem_cons_of_mem _ (afterDigitNh_mem rest h2)

theorem hasMinusNhAux_mem (l : List Char) (h : hasMinusNhAux l = true) :
    '-' ∈ l ∧ 'h' ∈ l := by
  induction l with
  | nil => exact absurd h (by simp [hasMinusNhAux])
  | cons c rest ih =>
    unfold hasMinusNhAux at h
    by_cases hc : c = '-'
    · rw [if_pos hc] at h
      rcases Bool.or_eq_true _ _ ▸ h with h1 | h2
      · exact ⟨by rw [hc]; exact List.mem_cons_self _ _,
          List.mem_cons_of_mem _ (startDigitsNh_mem rest h1)⟩
      · obtain ⟨hm, hh⟩ := ih h2
        exact ⟨List.mem_cons_of_mem _ hm, List.mem_cons_of_mem _ hh⟩
    · rw [if_neg hc] at h
      obtain ⟨hm, hh⟩ := ih h
      exact ⟨List.mem_cons_of_mem _ hm, List.mem_cons_of_mem _ hh⟩

/-- A string containing a `-Nh` pattern passes the per-span `'-'`/`'h'`
containment test of the verification re-read. -/
theorem containsMinusNh_marker (s : String) (h : containsMinusNh s = true) :
    charIncludes s '-' = true ∧ charIncludes s 'h' = true := by
  obtain ⟨h1, h2⟩ := hasMinusNhAux_mem s.data h
  exact ⟨by simp [charIncludes, h1], by simp [charIncludes, h2]⟩

/-- C1 counterexample: a run in which the popup fill returned `true` and
the target row, re-read at verification time, has a single span
`"Lunch-break"` — no `-Nh` missing-hours text remains anywhere in the row —
yet `handleFactorialTimeEntry` reports failure, because the verification
tests each span for containing `'-'` and `'h'` rather than for a `-Nh`
pattern. -/
theorem verification_counterexample :
    ((["Lunch-break"] : List String).all fun s => !containsMinusNh s) = true ∧
    verifySubmission ["Lunch-break"] = false ∧
    (handleFactorialTimeEntry
      ⟨[[⟨"-8h", some ⟨0, true⟩⟩]],
       [⟨"Añadir", "button", false, true⟩],
       ⟨[⟨"time", "", "", "", "", true⟩, ⟨"time", "", "", "", "", true⟩],
        [⟨"Aplicar", "submit", false, true⟩]⟩,
       ⟨"2024-01-01", "09:00", "17:00", some 60, none⟩,
       ["Lunch-break"], false⟩).1 = false := by
  decide

/-- C1 (amended): after a located row, a found "Añadir" button, a popup
fill that returned `true`, and a verification re-read that does not throw,
`handleFactorialTimeEntry` reports success exactly when no span of the
re-read row contains both a `'-'` and an `'h'` character; in particular a
row still showing a `-Nh` text in a span reports failure. -/
theorem verification_amended (env : FactorialEnv)
    (hrow : (findTargetRow env.selMatches).isSome = true)
    (hadd : (findAddButton env.buttons).isSome = true)
    (hfill : fillFactorialPopup env.popup env.entry = true)
    (hnv : env.verifyThrows = false) :
    ((handleFactorialTimeEntry env).1 = true ↔
      ∀ s ∈ env.rowSpansAfter,
        ¬(charIncludes s '-' = true ∧ charIncludes s 'h' = true)) ∧
    ((∃ s ∈ env.rowSpansAfter, containsMinusNh s = true) →
      (handleFactorialTimeEntry env).1 = false) := by
  obtain ⟨r, hr⟩ := Option.isSome_iff_exists.mp hrow
  obtain ⟨b, hb⟩ := Option.isSome_iff_exists.mp hadd
  have hmain : (handleFactorialTimeEntry env).1 = verifySubmission env.rowSpansAfter := by
    simp [handleFactorialTimeEntry, handleFactorialTimeEntryE, hr, hb, hfill, hnv]
  constructor
  · rw [hmain]
    simp only [verifySubmission, stillHasMissingHours, Bool.not_eq_true',
      List.any_eq_false, Bool.and_eq_true]
  · rintro ⟨s, hs, hcmn⟩
    rw [hmain]
    obtain ⟨h1, h2⟩ := containsMinusNh_marker s hcmn
    have hstill : stillHasMissingHours env.rowSpansAfter = true := by
      unfold stillHasMissingHours
      rw [List.any_eq_true]
      exact ⟨s, hs, by rw [h1, h2]; rfl⟩
    unfold verifySubmission
    rw [hstill]
    rfl

/-- Witness for C1 (amended) at a run whose re-read row shows
`"8h logged"` (an `'h'` but no `'-'`): verification succeeds. -/
theorem verification_amended_witness :
    ((handleFactorialTimeEntry
      ⟨[[⟨"-8h", some ⟨0, true⟩⟩]],
       [⟨"Añadir", "button", false, true⟩],
       ⟨[⟨"time", "", "", "", "", true⟩, ⟨"time", "", "", "", "", true⟩],
        [⟨"Aplicar", "submit", false, true⟩]⟩,
       ⟨"2024-01-01", "09:00", "17:00", some 60, none⟩,
       ["8h logged"], false⟩).1 = true ↔
      ∀ s ∈ (["8h logged"] : List String),
        ¬(charIncludes s '-' = true ∧ charIncludes s 'h' = true)) ∧
    ((∃ s ∈ (["8h logged"] : List String), containsMinusNh s = true) →
      (handleFactorialTimeEntry
      ⟨[[⟨"-8h", some ⟨0, true⟩⟩]],
       [⟨"Añadir", "button", false, true⟩],
       ⟨[⟨"time", "", "", "", "", true⟩, ⟨"time", "", "", "", "", true⟩],
        [⟨"Aplicar", "submit", false, true⟩]⟩,
       ⟨"2024-01-01", "09:00", "17:00", some 60, none⟩,
       ["8h logged"], false⟩).1 = false) :=
  verification_amended _ (by decide) (by decide) (by decide) rfl

theorem setTimeValueAux_gt (l : List Input) (k idx : Nat) (v : String)
    (h : idx < k) : setTimeValueAux idx v l k = l := by
  induction l generalizing k with
  | nil => rfl
  | cons i rest ih =>
    unfold setTimeValueAux
    by_cases hti : isTimeInput i = true
    · rw [if_pos hti, if_neg (by omega : ¬ k = idx), ih (k + 1) (by omega)]
    · rw [if_neg hti, ih k h]

theorem updateVal_nil (n : Nat) (v : String) : updateVal n v [] = [] := by
  cases n <;> rfl

theorem filter_setTimeValueAux (l : List Input) (k idx : Nat) (v : String)
    (h : k ≤ idx) :
    (setTimeValueAux idx v l k).filter isTimeInput
      = updateVal (idx - k) v (l.filter isTimeInput) := by
  induction l generalizing k with
  | nil =>
    show List.filter isTimeInput [] = updateVal (idx - k) v (List.filter isTimeInput [])
    rw [List.filter_nil, updateVal_nil]
  | cons i rest ih =>
    unfold setTimeValueAux
    by_cases hti : isTimeInput i = true
    · rw [if_pos hti]
      by_cases hk : k = idx
      · subst hk
        rw [if_pos rfl, setTimeValueAux_gt rest (k + 1) k v (by omega)]
        have hti' : isTimeInput { i with value := v } = true := hti
        rw [List.filter_cons_of_pos hti', List.filter_cons_of_pos hti]
        simp only [Nat.sub_self]
        rfl
      · rw [if_neg hk]
        rw [List.filter_cons_of_pos hti, List.filter_cons_of_pos hti]
        rw [ih (k + 1) (by omega)]
        have hix : idx - k = (idx - (k + 1)) + 1 := by omega
        rw [hix]
        rfl
    · rw [if_neg hti]
      rw [List.filter_cons_of_neg hti, List.filter_cons_of_neg hti]
      exact ih k h

/-- C4: whenever the page holds at least two `input[type="time"]` elements,
the time-filling step of `fillFactorialPopup` writes the entry's start time
into the first time input and its end time into the second, so reading the
time inputs back yields `startTime` and `endTime` in the first two
positions (all other inputs untouched in the tail). -/
theorem fillPopup_time_inputs (inputs : List Input) (e : WorkEntry)
    (h : 2 ≤ (inputs.filter isTimeInput).length) :
    ∃ rest : List String,
      ((fillFactorialPopupTimes inputs e).filter isTimeInput).map Input.value
        = e.startTime :: e.endTime :: rest := by
  obtain ⟨a, b, t, hft⟩ : ∃ a b t, inputs.filter isTimeInput = a :: b :: t := by
    cases hf : inputs.filter isTimeInput with
    | nil => rw [hf] at h; exact absurd h (by simp)
    | cons a l =>
      cases l with
      | nil => rw [hf] at h; exact absurd h (by simp)
      | cons b t => exact ⟨a, b, t, rfl⟩
  have hbranch : fillFactorialPopupTimes inputs e
      = setTimeValue 1 e.endTime (setTimeValue 0 e.startTime inputs) := by
    unfold fillFactorialPopupTimes
    rw [if_pos h]
  have h1 : (setTimeValue 0 e.startTime inputs).filter isTimeInput
      = updateVal 0 e.startTime (inputs.filter isTimeInput) :=
    filter_setTimeValueAux inputs 0 0 e.startTime (Nat.le_refl 0)
  have h2 : (setTimeValue 1 e.endTime (setTimeValue 0 e.startTime inputs)).filter isTimeInput
      = updateVal 1 e.endTime ((setTimeValue 0 e.startTime inputs).filter isTimeInput) :=
    filter_setTimeValueAux (setTimeValue 0 e.startTime inputs) 0 1 e.endTime (by omega)
  refine ⟨t.map Input.value, ?_⟩
  rw [hbranch, h2, h1, hft]
  rfl

/-- Witness for C4 at a popup holding exactly two time inputs. -/
theorem fillPopup_time_inputs_witness :
    ∃ rest : List String,
      ((fillFactorialPopupTimes
          [⟨"time", "", "", "", "", true⟩, ⟨"time", "", "", "", "", true⟩]
          ⟨"2024-01-03", "09:00", "17:00", some 60, none⟩).filter isTimeInput).map Input.value
        = "09:00" :: "17:00" :: rest :=
  fillPopup_time_inputs
    [⟨"time", "", "", "", "", true⟩, ⟨"time", "", "", "", "", true⟩]
    ⟨"2024-01-03", "09:00", "17:00", some 60, none⟩ (by decide)

/-- C5 counterexample: a popup with no inputs at all and an "Aplicar"
button.  Every start/end-time selector exhausts its list without a match,
yet the step surfaces no "not found" error: the filler logs a warning,
continues, and the fill reports success. -/
theorem lookup_counterexample :
    fillBySelectors startTimeSelPreds "09:00" ([] : List Input) = [] ∧
    fillBySelectors endTimeSelPreds "17:00" ([] : List Input) = [] ∧
    fillFactorialPopupE ⟨[], [⟨"Aplicar", "button", false, true⟩]⟩
      ⟨"2024-01-02", "09:00", "17:00", some 60, none⟩ = Except.ok [] ∧
    fillFactorialPopup ⟨[], [⟨"Aplicar", "button", false, true⟩]⟩
      ⟨"2024-01-02", "09:00", "17:00", some 60, none⟩ = true :=
  ⟨rfl, rfl, rfl, rfl⟩

/-- C5 (amended): the email-input lookup (when not already logged in), the
password-input lookup, the "Añadir" lookup and the "Aplicar" lookup each
terminate after exhausting their selector lists and surface a descriptive
"not found" error; the start/end time-input lookup is the exception — it
logs a warning and continues, and the popup filler can only ever surface
the "Aplicar" not-found error. -/
theorem lookup_steps_amended :
    (∀ env : LoginEnv, firstHit env.emailResults = none →
      env.alreadyLoggedIn = false →
      login env = Except.error
        "Could not find email input field. The page structure might have changed.") ∧
    (∀ env : LoginEnv, (firstHit env.emailResults).isSome = true →
      firstHit env.passwordResults = none →
      login env = Except.error "Could not find password input field") ∧
    (∀ env : FactorialEnv, (findTargetRow env.selMatches).isSome = true →
      findAddButton env.buttons = none →
      handleFactorialTimeEntryE env = Except.error
        ("Could not find \"Añadir\" button after clicking toggle", [Action.toggleClicked]) ∧
      (handleFactorialTimeEntry env).1 = false) ∧
    (∀ (popup : PopupPage) (e : WorkEntry), findApplyButton popup.buttons = none →
      fillFactorialPopupE popup e = Except.error
        "Could not find \"Aplicar\" button to submit the form") ∧
    (∀ (popup : PopupPage) (e : WorkEntry) (err : String),
      fillFactorialPopupE popup e = Except.error err →
      err = "Could not find \"Aplicar\" button to submit the form") := by
  refine ⟨?_, ?_, ?_, ?_, ?_⟩
  · intro env h1 h2
    simp [login, h1, h2]
  · intro env h1 h2
    obtain ⟨x, hx⟩ := Option.isSome_iff_exists.mp h1
    simp [login, hx, h2]
  · intro env h1 h2
    obtain ⟨r, hr⟩ := Option.isSome_iff_exists.mp h1
    constructor
    · simp [handleFactorialTimeEntryE, hr, h2]
    · simp [handleFactorialTimeEntry, handleFactorialTimeEntryE, hr, h2]
  · intro popup e h
    simp [fillFactorialPopupE, h]
  · intro popup e err h
    simp only [fillFactorialPopupE] at h
    cases hfa : findApplyButton popup.buttons with
    | none =>
      rw [hfa] at h
      simp only [Except.error.injEq] at h
      exact h.symm
    | some b =>
      rw [hfa] at h
      exact absurd h (by simp)

/-- Witness for C5 (amended): concrete no-match pages for the email,
password and "Aplicar" lookups. -/
theorem lookup_steps_amended_witness :
    login ⟨[none], false, [], [], false, []⟩
      = Except.error
        "Could not find email input field. The page structure might have changed." ∧
    login ⟨[some ()], false, [none], [], false, []⟩
      = Except.error "Could not find password input field" ∧
    fillFactorialPopupE ⟨[], []⟩ ⟨"2024-01-02", "09:00", "17:00", some 60, none⟩
      = Except.error "Could not find \"Aplicar\" button to submit the form" :=
  ⟨lookup_steps_amended.1 ⟨[none], false, [], [], false, []⟩ rfl rfl,
   lookup_steps_amended.2.1 ⟨[some ()], false, [none], [], false, []⟩ rfl rfl,
   lookup_steps_amended.2.2.2.1 ⟨[], []⟩
     ⟨"2024-01-02", "09:00", "17:00", some 60, none⟩ rfl⟩

/-- C6 counterexample: with credentials configured, the `log-custom`
action run on the malformed date `"bad-date"` still initializes the
browser — no input validation rejects the date before the browser opens. -/
theorem logCustom_counterexample :
    isValidDateFormat "bad-date" = false ∧
    CliEvent.browserInitialized ∈
      logCustomTrace ⟨"user@example.com", "hunter2"⟩ "bad-date"
        ⟨"09:00", "17:00", 60, none⟩ true := by
  decide

/-- C6 (amended): the `log-custom` action performs no date-format
validation.  Its input validation (`validateConfig`) checks only that the
configured email and password are nonempty; whenever both are present the
browser is initialized regardless of the date argument, the date string is
passed through unchanged into the work entry, and only a configuration
error stops the action before the browser opens. -/
theorem logCustom_amended (c : AppConfig) (dateArg : String)
    (opts : LogCustomOptions) (sessionOk : Bool) :
    (validateConfig c = Except.ok () ↔ (¬ c.email = "" ∧ ¬ c.password = "")) ∧
    (¬ c.email = "" → ¬ c.password = "" →
      CliEvent.browserInitialized ∈ logCustomTrace c dateArg opts sessionOk) ∧
    (∀ e : String, validateConfig c = Except.error e →
      logCustomTrace c dateArg opts sessionOk = [CliEvent.configRejected e]) ∧
    (logCustomEntry dateArg opts).date = dateArg := by
  refine ⟨?_, ?_, ?_, rfl⟩
  · unfold validateConfig
    by_cases he : c.email = "" <;> by_cases hp : c.password = "" <;> simp [he, hp]
  · intro he hp
    have hv : validateConfig c = Except.ok () := by
      unfold validateConfig
      simp [he, hp]
    cases sessionOk <;> simp [logCustomTrace, hv]
  · intro e hv
    simp [logCustomTrace, hv]

/-- Witness for C6 (amended) at a concrete configuration and date. -/
theorem logCustom_amended_witness :
    CliEvent.browserInitialized ∈
      logCustomTrace ⟨"user@example.com", "hunter2"⟩ "2024-13-99"
        ⟨"09:00", "17:00", 60, none⟩ true :=
  (logCustom_amended ⟨"user@example.com", "hunter2"⟩ "2024-13-99"
    ⟨"09:00", "17:00", 60, none⟩ true).2.1 (by decide) (by decide)

/-- The error-message scan of `login` can never produce a message: the
`throw` that would carry the error element's text is caught by the same
loop's `catch`. -/
theorem scanLoginErrors_none (l : List (Option String)) : scanLoginErrors l = none := by
  induction l with
  | nil => rfl
  | cons r rest ih => cases r <;> simpa [scanLoginErrors] using ih

/-- C7: `login`'s failure error never carries the text of a visible error
element.  The loop at `factorial-automation.ts` lines 198-209 throws
`Login failed: <text>` inside its own `try`, whose `catch` swallows it, so
with a failed login and a first error element reading
`"Invalid credentials"` the thrown error is the generic
`Login failed - please check credentials`, which does not contain the
element's text. -/
theorem login_error_swallowed :
    (∀ l : List (Option String), scanLoginErrors l = none) ∧
    login ⟨[some ()], false, [some ()], [], false,
      [some "Invalid credentials", none, none, none]⟩
      = Except.error "Login failed - please check credentials" ∧
    strIncludes "Login failed - please check credentials" "Invalid credentials" = false :=
  ⟨scanLoginErrors_none, rfl, by decide⟩

/-- C10: `logWorkHours` and `logAnyMissingHours` are total boolean-valued
functions of the run environment: every internally thrown error (navigation
failure, workflow failure) is caught and becomes `false`, and the caller's
boolean is `true` exactly when navigation succeeded and the Factorial
workflow reported success. -/
theorem public_methods_catch_all (env : OuterEnv) (cfg : WorkHoursConfig)
    (todayStr : String) :
    (logWorkHours env = true ↔
      (env.navFails = false ∧ (handleFactorialTimeEntry env.fenv).1 = true)) ∧
    (∀ e : String, logWorkHoursE env = Except.error e → logWorkHours env = false) ∧
    (logAnyMissingHours env cfg todayStr = true ↔
      (env.navFails = false ∧
        (handleFactorialTimeEntry
          { env.fenv with entry := anyMissingDefaultEntry cfg todayStr }).1 = true)) ∧
    (∀ e : String, logAnyMissingHoursE env cfg todayStr = Except.error e →
      logAnyMissingHours env cfg todayStr = false) := by
  refine ⟨?_, ?_, ?_, ?_⟩
  · cases hn : env.navFails <;>
      cases hh : (handleFactorialTimeEntry env.fenv).1 <;>
        simp [logWorkHours, logWorkHoursE, hn, hh]
  · intro e he
    unfold logWorkHours
    rw [he]
  · cases hn : env.navFails <;>
      cases hh : (handleFactorialTimeEntry
        { env.fenv with entry := anyMissingDefaultEntry cfg todayStr }).1 <;>
        simp [logAnyMissingHours, logAnyMissingHoursE, hn, hh]
  · intro e he
    unfold logAnyMissingHours
    rw [he]

/-- Witness for C10 at a run whose navigation fails: the caller still
receives a boolean, namely `false`. -/
theorem public_methods_catch_all_witness :
    logWorkHours
      ⟨⟨[], [], ⟨[], []⟩, ⟨"2024-01-01", "09:00", "17:00", some 60, none⟩, [], false⟩,
       true⟩ = false :=
  (public_methods_catch_all
    ⟨⟨[], [], ⟨[], []⟩, ⟨"2024-01-01", "09:00", "17:00", some 60, none⟩, [], false⟩,
     true⟩ ⟨"09:00", "17:00", 60⟩ "2024-01-05").2.1
    "Navigation to the attendance page failed" rfl

end Fichar
